import Mathlib

/-!
# Verification of the DPC Sentinel X scanning and detection core

Shallow embedding, in Lean 4, of the scan-orchestration and detection
pipeline of the DPC Sentinel X repository, together with proofs and
refutations of the specified properties.

Source files embedded here:
* `src/core/detection/advanced_detection.py` (risk-score aggregation),
* `src/core/detection/ai_detection.py` (AI feature scoring and entropy),
* `src/core/scanner/deep_scan.py` (deep per-file analysis),
* `src/core/scanner/quick_scan.py` (quick traversal),
* `src/core/scanner/custom_scan.py` (custom scan session).

Modelling conventions:
* Python `int` is `Nat`/`Int`; Python `float` scores are `ℚ` (the scores
  involved are small sums of decimal literals, far from any threshold
  where rounding of binary floating point could flip a comparison);
  entropy is `ℝ` since it uses `log2`.
* Filesystem state is an explicit inductive tree (`FsNode`); per-file
  metadata (size, readability, digests, symlink flag) are fields.  The
  cryptographic digests computed by `hashlib` are treated as opaque
  per-file metadata: the embedding never recomputes MD5/SHA256, it reads
  the digest recorded for a file (an unreadable file yields `""`, exactly
  as the source's `_calculate_md5` / `_calculate_sha256` helpers return
  `""` when the `open` raises).
* Python exception flow is made explicit: functions whose source bodies
  can raise to the caller return `Except PyExc _`; exceptions that the
  source catches locally are resolved inside the definition.  A
  `KeyboardInterrupt` (user interrupt) is modelled by a trigger
  threaded through the traversal state: when the number of scanned files
  reaches the trigger, the interrupt "raises", setting the `intr` flag,
  after which every remaining step of the body is skipped (exception
  unwinding) until a matching handler runs.  Note that in Python 3,
  `KeyboardInterrupt` derives from `BaseException`, not `Exception`, so
  an `except Exception` clause does not catch it.
-/

namespace DpcAV

/-- Python exceptions that can escape to a caller in the embedded code. -/
inductive PyExc where
  | keyboardInterrupt : PyExc
  deriving DecidableEq, Repr

/-! ## String helpers

The source manipulates paths and file names with `str.lower`,
`os.path.basename`, `os.path.splitext`, `str.endswith` and the `in`
substring operator.  They are embedded as executable functions on
`List Char` (all names involved are ASCII). -/

/-- `s.lower()` on an ASCII string. -/
def pyLower (s : List Char) : List Char := s.map Char.toLower

/-- Python `needle in hay` (substring containment). -/
def containsSub (needle : List Char) : List Char → Bool
  | [] => needle.isEmpty
  | c :: rest => needle.isPrefixOf (c :: rest) || containsSub needle rest

/-- Python `s.endswith(suffix)`. -/
def pyEndsWith (s suffix : List Char) : Bool :=
  suffix.reverse.isPrefixOf s.reverse

/-- `os.path.basename` for forward-slash paths: the part after the last
separator. -/
def pyBasename (s : List Char) : List Char :=
  ((s.reverse.takeWhile (fun c => c ≠ '/')).reverse)

/-- The extension part of `os.path.splitext`: everything from the last
dot of the basename, where the leading run of dots of the basename does
not count as a separator (`splitext(".hidden") = (".hidden", "")`). -/
def pySplitextExt (s : List Char) : List Char :=
  let name := pyBasename s
  let lead := (name.takeWhile (fun c => c = '.')).length
  let rest := name.drop lead
  let afterRev := rest.reverse.takeWhile (fun c => c ≠ '.')
  if afterRev.length = rest.length then []
  else '.' :: afterRev.reverse

/-! ## `ai_detection.py` — AI feature scoring and entropy -/

namespace AIDetection

/-- The feature dict built by `AIDetectionEngine._extract_features`:
keys `file_size`, `entropy`, `extension`, `sha256`. -/
structure Features where
  file_size : Nat
  entropy : ℚ
  extension : String
  sha256 : String
  deriving DecidableEq, Repr

/-- `AIDetectionEngine.detection_threshold`, set to `0.75` in
`__init__` (ai_detection.py, line 28). -/
def detection_threshold : ℚ := 0.75

/-- The suspicious filename substrings checked by
`AIDetectionEngine._analyze_features` (ai_detection.py, line 160). -/
def ai_suspicious_names : List String :=
  ["trojan", "hack", "crack", "keygen", "patch", "warez", "virus"]

/-- The accumulated `threat_score` of
`AIDetectionEngine._analyze_features` (ai_detection.py, lines 141–165):
starts at `0.0`, adds `0.3` when entropy exceeds `7.0`, adds `0.4` for a
small `.exe`, and adds `0.5` once (the loop `break`s after the first
match) when the lower-cased basename contains a suspicious substring. -/
def threat_score (features : Features) (file_path : String) : ℚ :=
  (if features.entropy > 7.0 then 0.3 else 0)
  + (if features.file_size < 1024 ∧ features.extension = ".exe" then 0.4 else 0)
  + (if ai_suspicious_names.any
        (fun n => containsSub n.toList (pyLower (pyBasename file_path.toList)))
     then 0.5 else 0)

/-- The result dict returned by `AIDetectionEngine._analyze_features`
(ai_detection.py, lines 175–183); the `detection_type` list and
timestamp are presentation-only and omitted. -/
structure AIResult where
  status : String
  score : ℚ
  classification : String
  sha256 : String
  file_size : Nat
  deriving DecidableEq, Repr

/-- `AIDetectionEngine._analyze_features` (ai_detection.py, lines
126–183): classification by fixed thresholds on the accumulated score,
reported score capped at `1.0`. -/
def _analyze_features (features : Features) (file_path : String) : AIResult :=
  let score := threat_score features file_path
  { status := "success"
    score := min score 1.0
    classification :=
      if score ≥ detection_threshold then "malicious"
      else if score ≥ 0.4 then "suspicious"
      else "benign"
    sha256 := features.sha256
    file_size := features.file_size }

/-- `AIDetectionEngine._calculate_entropy` (ai_detection.py, lines
185–219): `0` for empty content, otherwise the Shannon entropy
`-Σ p·log2(p)` over the nonzero buckets of the 256-bucket byte
histogram with `p = count/length`. -/
noncomputable def _calculate_entropy (data : List (Fin 256)) : ℝ :=
  if data = [] then 0
  else -(∑ b : Fin 256,
      if 0 < data.count b then
        ((data.count b : ℝ) / data.length) * Real.logb 2 ((data.count b : ℝ) / data.length)
      else 0)

/-- The entropy formula exactly as the specification words it: the sum
ranges over the nonzero buckets of the byte-frequency histogram. -/
noncomputable def specEntropy (data : List (Fin 256)) : ℝ :=
  -(∑ b ∈ Finset.univ.filter (fun b : Fin 256 => 0 < data.count b),
      ((data.count b : ℝ) / data.length) * Real.logb 2 ((data.count b : ℝ) / data.length))

end AIDetection

/-! ## Filesystem model

The scanners inspect a filesystem through `os.scandir`, `os.path` and
`open`.  The filesystem is embedded as an explicit tree.  A file's
digests are opaque metadata (see the header); `readable = false` means
any attempt to `open` the file raises `IOError` (which the source's
hashing helpers catch, returning `""`).  A directory with
`readable = false` makes `os.scandir` raise. -/

/-- Per-file metadata visible to the scanners. -/
structure FileMeta where
  name : String
  size : Nat
  md5 : String
  sha256 : String
  readable : Bool
  isSymlink : Bool
  deriving DecidableEq, Repr

/-- A filesystem subtree: a file leaf, or a directory entry with its
listing.  `isSymlink` is what `entry.is_symlink()` reports for the
entry. -/
inductive FsNode where
  | file : FileMeta → FsNode
  | dir : (name : String) → (readable : Bool) → (isSymlink : Bool) →
      (children : List FsNode) → FsNode

/-- Whether the user interrupt (KeyboardInterrupt) fires at the next
file step: the modelled interrupt trigger raises once
`files_scanned` has reached the trigger value. -/
def interruptDue (trigger : Option Nat) (files_scanned : Nat) : Bool :=
  match trigger with
  | none => false
  | some k => k ≤ files_scanned

/-- One configured root path of a scan run (`CRITICAL_PATHS` /
`SYSTEM_PATHS` entry): the path string, whether `os.path.exists` finds
it, and — when it is a directory — whether `os.scandir` succeeds and
the listing. -/
structure Root where
  path : String
  found : Bool
  readable : Bool
  children : List FsNode

/-- Remove every symlink entry (file or directory), recursively, from a
listing.  Used only to state the symlink-safety property: a traversal
that never follows symlinks computes the same state on the pruned
tree. -/
def pruneSyms : List FsNode → List FsNode
  | [] => []
  | FsNode.file m :: rest =>
    if m.isSymlink then pruneSyms rest else FsNode.file m :: pruneSyms rest
  | FsNode.dir n r s children :: rest =>
    if s then pruneSyms rest
    else FsNode.dir n r s (pruneSyms children) :: pruneSyms rest

/-- A listing made only of plain (non-symlink) file entries — the shape
of the directory in the unreadable-file scenario. -/
def filesOnly (l : List FsNode) : Bool :=
  l.all (fun e =>
    match e with
    | FsNode.file m => !m.isSymlink
    | FsNode.dir _ _ _ _ => false)

/-- A concrete directory listing with nine readable files and one
unreadable file (its open-failures make the hashing helpers return
`""`); the shape of the partial-failure scenario of the
specification. -/
def exampleMixedListing : List FsNode :=
  [FsNode.file ⟨"f1.txt", 10, "m1", "h1", true, false⟩,
   FsNode.file ⟨"f2.txt", 10, "m2", "h2", true, false⟩,
   FsNode.file ⟨"f3.txt", 10, "m3", "h3", true, false⟩,
   FsNode.file ⟨"f4.txt", 10, "m4", "h4", true, false⟩,
   FsNode.file ⟨"f5.txt", 10, "m5", "h5", true, false⟩,
   FsNode.file ⟨"f6.txt", 10, "m6", "h6", true, false⟩,
   FsNode.file ⟨"f7.txt", 10, "m7", "h7", true, false⟩,
   FsNode.file ⟨"f8.txt", 10, "m8", "h8", true, false⟩,
   FsNode.file ⟨"f9.txt", 10, "m9", "h9", true, false⟩,
   FsNode.file ⟨"locked.bin", 10, "", "", false, false⟩]

/-! ## `quick_scan.py` — quick traversal -/

namespace QuickScan

/-- `SUSPICIOUS_EXTENSIONS` (quick_scan.py, lines 29–31). -/
def SUSPICIOUS_EXTENSIONS : List String :=
  [".exe", ".dll", ".bat", ".cmd", ".ps1", ".vbs", ".js", ".jar", ".scr", ".pif"]

/-- One entry appended to `scan_results` by quick `_scan_directory`
(timestamp omitted). -/
structure ScanResult where
  file_path : String
  status : String
  reason : String
  deriving DecidableEq, Repr

/-- The `scan_stats` dict of `run_quick_scan` (quick_scan.py, lines
45–52). -/
structure ScanStats where
  files_scanned : Nat
  suspicious_files : Nat
  errors : Nat
  end_time : Option Nat
  duration : Nat
  deriving DecidableEq, Repr

/-- State threaded through a quick scan.  `visitedFiles` and
`visitedDirs` are ghost fields recording, for the traversal‑bound
claims, every file processed and every directory opened together with
its depth below the root (root directory at depth 0, its entries at
depth 1, …); they influence no control flow.  `intr` is the
pending-`KeyboardInterrupt` flag. -/
structure ScanState where
  results : List ScanResult
  stats : ScanStats
  intr : Bool
  visitedFiles : List (Nat × String)
  visitedDirs : List (Nat × String)
  deriving DecidableEq, Repr

/-- Initial quick-scan state. -/
def initState : ScanState :=
  { results := [], stats := ⟨0, 0, 0, none, 0⟩, intr := false,
    visitedFiles := [], visitedDirs := [] }

/-- The file branch of quick `_scan_directory` (quick_scan.py, lines
106–121): count the file, and flag it as suspicious purely by its
(lower-cased) extension.  `d` is the depth of the *containing*
directory, so the file itself is at depth `d + 1`. -/
def fileStep (d : Nat) (path : String) (m : FileMeta) (st : ScanState) : ScanState :=
  let st1 := { st with
    stats := { st.stats with files_scanned := st.stats.files_scanned + 1 }
    visitedFiles := st.visitedFiles ++ [(d + 1, path)] }
  let ext := String.mk (pySplitextExt (pyLower m.name.toList))
  if ext ∈ SUSPICIOUS_EXTENSIONS then
    { st1 with
      results := st1.results ++
        [⟨path, "suspicious", "Suspicious extension: " ++ ext⟩]
      stats := { st1.stats with
        suspicious_files := st1.stats.suspicious_files + 1 } }
  else st1

/-- The entry loop of quick `_scan_directory` (quick_scan.py, lines
99–129), flattened over the listing.  Each entry: skipped while an
interrupt is unwinding; skipped if a symlink; a file is handled by
`fileStep` (unless the modelled user interrupt fires first); a
subdirectory re-enters `_scan_directory` at depth `d + 1`, whose body
(depth check at line 95, `os.scandir` at line 99, outer `except` at
lines 131–133 incrementing `errors`) is inlined here. -/
def scanEntries (trigger : Option Nat) (maxDepth : Nat) :
    Nat → String → List FsNode → ScanState → ScanState
  | _, _, [], st => st
  | d, dirPath, e :: rest, st =>
    let st' :=
      if st.intr then st
      else
        match e with
        | .file m =>
          if m.isSymlink then st
          else if interruptDue trigger st.stats.files_scanned then
            { st with intr := true }
          else fileStep d (dirPath ++ "/" ++ m.name) m st
        | .dir name readable isSym children =>
          if isSym then st
          else if d + 1 > maxDepth then st
          else
            let sub := dirPath ++ "/" ++ name
            let stv := { st with visitedDirs := st.visitedDirs ++ [(d + 1, sub)] }
            if readable then scanEntries trigger maxDepth (d + 1) sub children stv
            else { stv with stats := { stv.stats with errors := stv.stats.errors + 1 } }
    scanEntries trigger maxDepth d dirPath rest st'

/-- Quick `_scan_directory` (quick_scan.py, lines 91–133) applied to a
root directory: depth check, then `os.scandir` (an unreadable directory
raises, caught by the outer handler which increments `errors`), then
the entry loop. -/
def _scan_directory (trigger : Option Nat) (maxDepth d : Nat) (dirPath : String)
    (readable : Bool) (children : List FsNode) (st : ScanState) : ScanState :=
  if st.intr then st
  else if d > maxDepth then st
  else
    let stv := { st with visitedDirs := st.visitedDirs ++ [(d, dirPath)] }
    if readable then scanEntries trigger maxDepth d dirPath children stv
    else { stv with stats := { stv.stats with errors := stv.stats.errors + 1 } }

/-- The `try`-block body of `run_quick_scan` (quick_scan.py, lines
54–62): scan each existing critical path with `max_depth=2`. -/
def scanBody (trigger : Option Nat) (roots : List Root) : ScanState :=
  roots.foldl
    (fun st r =>
      if r.found then _scan_directory trigger 2 0 r.path r.readable r.children st
      else st)
    initState

/-- `run_quick_scan` (quick_scan.py, lines 34–88): scan each existing
critical path with `max_depth=2`, then finalise the stats.  The `try`
block has a single `except Exception` handler (lines 83–88).  In Python
3 `KeyboardInterrupt` derives from `BaseException`, not `Exception`, so
a user interrupt is *not* caught here and propagates to the caller. -/
def run_quick_scan (now : Nat) (trigger : Option Nat) (roots : List Root) :
    Except PyExc (List ScanResult × ScanStats) :=
  let body := scanBody trigger roots
  if body.intr then Except.error PyExc.keyboardInterrupt
  else Except.ok (body.results,
    { body.stats with end_time := some now, duration := now })

end QuickScan

/-! ## `deep_scan.py` — deep per-file analysis and traversal -/

namespace DeepScan

/-- `TARGET_EXTENSIONS` (deep_scan.py, lines 30–41). -/
def TARGET_EXTENSIONS : List String :=
  [".exe", ".dll", ".sys", ".drv", ".ocx", ".cpl",
   ".bat", ".cmd", ".ps1", ".vbs", ".js", ".jse", ".wsf", ".wsh", ".hta",
   ".jar", ".class",
   ".doc", ".docm", ".xls", ".xlsm", ".ppt", ".pptm",
   ".scr", ".pif", ".msi", ".com"]

/-- `KNOWN_MALWARE_HASHES` (deep_scan.py, lines 44–48). -/
def KNOWN_MALWARE_HASHES : List String :=
  ["e44f9e348c0c7eed13d225a9bdb4c576",
   "5b4f8efdd7bbe4a7dbd307f7778e5e66"]

/-- One entry appended to `scan_results` by deep `_analyze_file`
(timestamp omitted). -/
structure ScanResult where
  file_path : String
  status : String
  reason : String
  md5 : String
  sha256 : String
  size : Nat
  deriving DecidableEq, Repr

/-- The `scan_stats` dict of `run_deep_scan` (deep_scan.py, lines
65–73); start time and duration are abstracted, `end_time` keeps its
`None`-until-finalised behaviour. -/
structure ScanStats where
  files_scanned : Nat
  suspicious_files : Nat
  confirmed_threats : Nat
  errors : Nat
  end_time : Option Nat
  duration : Nat
  deriving DecidableEq, Repr

/-- Mutable state threaded through a deep scan: the results list, the
stats dict, and the pending-`KeyboardInterrupt` flag (`intr = true`
while an uncaught interrupt is unwinding; every remaining statement is
skipped until a handler catches it). -/
structure ScanState where
  results : List ScanResult
  stats : ScanStats
  intr : Bool
  deriving DecidableEq, Repr

/-- Initial deep-scan state. -/
def initState : ScanState :=
  { results := [], stats := ⟨0, 0, 0, 0, none, 0⟩, intr := false }

/-- `_calculate_md5` (deep_scan.py, lines 278–290): digest of a readable
file, `""` when `open` raises (the helper catches its own exception). -/
def _calculate_md5 (f : FileMeta) : String :=
  if f.readable then f.md5 else ""

/-- `_calculate_sha256` (deep_scan.py, lines 293–305). -/
def _calculate_sha256 (f : FileMeta) : String :=
  if f.readable then f.sha256 else ""

/-- Deep `_analyze_file` (deep_scan.py, lines 167–246).  Control flow of
the source body:
1. files larger than 100 MiB are skipped outright (lines 176–178);
2. an MD5 match against `KNOWN_MALWARE_HASHES` appends a `malicious`
   result, increments `confirmed_threats` and returns (lines 184–197);
3. otherwise line 201 evaluates `self._perform_heuristic_analysis(...)`
   — but `_analyze_file` is a free module-level function and `self` is
   unbound, so the lookup raises `NameError`; the `except Exception`
   handler at lines 244–246 catches it and increments `errors`.  The
   small-executable and suspicious-filename heuristics at lines 214–242
   are therefore dead code and do not appear in the embedding. -/
def _analyze_file (file_path : String) (f : FileMeta) (st : ScanState) : ScanState :=
  if f.size > 100 * 1024 * 1024 then st
  else
    let md5_hash := _calculate_md5 f
    let sha256_hash := _calculate_sha256 f
    if md5_hash ∈ KNOWN_MALWARE_HASHES then
      { st with
        results := st.results ++
          [⟨file_path, "malicious", "Matched known malware signature",
            md5_hash, sha256_hash, f.size⟩]
        stats := { st.stats with
          confirmed_threats := st.stats.confirmed_threats + 1 } }
    else
      { st with stats := { st.stats with errors := st.stats.errors + 1 } }

/-- The file branch of deep `_scan_directory` (deep_scan.py, lines
141–152): count the file, then analyze it when its (lower-cased)
extension is in the target list. -/
def fileStep (path : String) (m : FileMeta) (st : ScanState) : ScanState :=
  let st1 := { st with
    stats := { st.stats with files_scanned := st.stats.files_scanned + 1 } }
  let ext := String.mk (pySplitextExt (pyLower m.name.toList))
  if ext ∈ TARGET_EXTENSIONS then _analyze_file path m st1 else st1

/-- The entry loop of deep `_scan_directory` (deep_scan.py, lines
133–164), flattened over the listing; the body of the recursive call on
subdirectories (depth check at line 130, `os.scandir`, outer `except`
at lines 162–164 incrementing `errors`) is inlined in the directory
case, as in the quick-scan embedding. -/
def scanEntries (trigger : Option Nat) (maxDepth : Nat) :
    Nat → String → List FsNode → ScanState → ScanState
  | _, _, [], st => st
  | d, dirPath, e :: rest, st =>
    let st' :=
      if st.intr then st
      else
        match e with
        | .file m =>
          if m.isSymlink then st
          else if interruptDue trigger st.stats.files_scanned then
            { st with intr := true }
          else fileStep (dirPath ++ "/" ++ m.name) m st
        | .dir name readable isSym children =>
          if isSym then st
          else if d + 1 > maxDepth then st
          else if readable then
            scanEntries trigger maxDepth (d + 1) (dirPath ++ "/" ++ name) children st
          else { st with stats := { st.stats with errors := st.stats.errors + 1 } }
    scanEntries trigger maxDepth d dirPath rest st'

/-- Deep `_scan_directory` (deep_scan.py, lines 126–164) applied to a
root directory. -/
def _scan_directory (trigger : Option Nat) (maxDepth d : Nat) (dirPath : String)
    (readable : Bool) (children : List FsNode) (st : ScanState) : ScanState :=
  if st.intr then st
  else if d > maxDepth then st
  else if readable then scanEntries trigger maxDepth d dirPath children st
  else { st with stats := { st.stats with errors := st.stats.errors + 1 } }

/-- The `try`-block body of `run_deep_scan` (deep_scan.py, lines
76–85): scan each existing system path with `max_depth=5`. -/
def scanBody (trigger : Option Nat) (roots : List Root) : ScanState :=
  roots.foldl
    (fun st r =>
      if r.found then _scan_directory trigger 5 0 r.path r.readable r.children st
      else st)
    initState

/-- `run_deep_scan` (deep_scan.py, lines 51–123): scan each existing
system path with `max_depth=5`, then finalise the stats.  The `try`
block has an `except KeyboardInterrupt` handler (lines 111–116) that
finalises the stats and returns the partial `(scan_results, scan_stats)`
pair, so an interrupted deep scan still returns normally. -/
def run_deep_scan (now : Nat) (trigger : Option Nat) (roots : List Root) :
    Except PyExc (List ScanResult × ScanStats) :=
  let body := scanBody trigger roots
  if body.intr then
    Except.ok (body.results,
      { body.stats with end_time := some now, duration := now })
  else
    Except.ok (body.results,
      { body.stats with end_time := some now, duration := now })

end DeepScan

/-! ## `custom_scan.py` — custom scan session -/

namespace CustomScan

/-- `TARGET_EXTENSIONS` (custom_scan.py, lines 20–31) — a duplicate of
the deep-scan list. -/
def TARGET_EXTENSIONS : List String :=
  [".exe", ".dll", ".sys", ".drv", ".ocx", ".cpl",
   ".bat", ".cmd", ".ps1", ".vbs", ".js", ".jse", ".wsf", ".wsh", ".hta",
   ".jar", ".class",
   ".doc", ".docm", ".xls", ".xlsm", ".ppt", ".pptm",
   ".scr", ".pif", ".msi", ".com"]

/-- The suspicious filename substrings of custom `_analyze_file`
(custom_scan.py, line 177). -/
def suspicious_names : List String :=
  ["trojan", "hack", "crack", "keygen", "patch", "warez", "virus"]

/-- One entry appended to `scan_results` by custom `_analyze_file`
(timestamp omitted). -/
structure ScanResult where
  file_path : String
  status : String
  reason : String
  sha256 : String
  size : Nat
  deriving DecidableEq, Repr

/-- The `scan_stats` dict of `run_custom_scan` (custom_scan.py, lines
54–61).  Note: unlike quick and deep scans it has *no* error counter;
`target_path` is a run parameter and omitted here. -/
structure ScanStats where
  files_scanned : Nat
  suspicious_files : Nat
  end_time : Option Nat
  duration : Nat
  deriving DecidableEq, Repr

/-- State threaded through a custom scan. -/
structure ScanState where
  results : List ScanResult
  stats : ScanStats
  intr : Bool
  deriving DecidableEq, Repr

/-- Initial custom-scan state. -/
def initState : ScanState :=
  { results := [], stats := ⟨0, 0, none, 0⟩, intr := false }

/-- Custom `_analyze_file` (custom_scan.py, lines 150–201): skip files
above 100 MiB, hash, then flag as suspicious a small `.exe` (the check
is on the lower-cased full path) and/or a basename containing one of
`suspicious_names`; reasons accumulate in that order and are joined
with `", "`.  The `except` at lines 199–200 only logs, and nothing in
the modelled body raises, so it does not appear here. -/
def _analyze_file (file_path : String) (f : FileMeta) (st : ScanState) : ScanState :=
  if f.size > 100 * 1024 * 1024 then st
  else
    let sha256_hash := if f.readable then f.sha256 else ""
    let small_exe : Bool :=
      f.size < 1024 && pyEndsWith (pyLower file_path.toList) ".exe".toList
    let matched := suspicious_names.filter
      (fun nm => containsSub nm.toList (pyLower (pyBasename file_path.toList)))
    let reason := (if small_exe then ["Unusually small executable"] else [])
      ++ matched.map (fun nm => "Suspicious filename pattern: " ++ nm)
    if small_exe || !matched.isEmpty then
      { st with
        results := st.results ++
          [⟨file_path, "suspicious", String.intercalate ", " reason,
            sha256_hash, f.size⟩]
        stats := { st.stats with
          suspicious_files := st.stats.suspicious_files + 1 } }
    else st

/-- The file branch of custom `_scan_directory` (custom_scan.py, lines
124–135). -/
def fileStep (path : String) (m : FileMeta) (st : ScanState) : ScanState :=
  let st1 := { st with
    stats := { st.stats with files_scanned := st.stats.files_scanned + 1 } }
  let ext := String.mk (pySplitextExt (pyLower m.name.toList))
  if ext ∈ TARGET_EXTENSIONS then _analyze_file path m st1 else st1

/-- The entry loop of custom `_scan_directory` (custom_scan.py, lines
109–147), flattened over the listing.  Its two `except` handlers (lines
141–143 and 145–147) only log and print: unlike quick/deep, no error
counter exists, so an unreadable subdirectory leaves the state
unchanged. -/
def scanEntries (trigger : Option Nat) (maxDepth : Nat) :
    Nat → String → List FsNode → ScanState → ScanState
  | _, _, [], st => st
  | d, dirPath, e :: rest, st =>
    let st' :=
      if st.intr then st
      else
        match e with
        | .file m =>
          if m.isSymlink then st
          else if interruptDue trigger st.stats.files_scanned then
            { st with intr := true }
          else fileStep (dirPath ++ "/" ++ m.name) m st
        | .dir name readable isSym children =>
          if isSym then st
          else if d + 1 > maxDepth then st
          else if readable then
            scanEntries trigger maxDepth (d + 1) (dirPath ++ "/" ++ name) children st
          else st
    scanEntries trigger maxDepth d dirPath rest st'

/-- Custom `_scan_directory` (custom_scan.py, lines 109–147) applied to
a root directory (`max_depth` defaults to 10). -/
def _scan_directory (trigger : Option Nat) (maxDepth d : Nat) (dirPath : String)
    (readable : Bool) (children : List FsNode) (st : ScanState) : ScanState :=
  if st.intr then st
  else if d > maxDepth then st
  else if readable then scanEntries trigger maxDepth d dirPath children st
  else st

/-- The `try`-block body of `run_custom_scan` (custom_scan.py, lines
63–71) on an existing target: a file target is counted and analysed
directly (lines 65–68; the modelled user interrupt may fire before the
file is processed), a directory target is walked with `max_depth=10`. -/
def scanBody (trigger : Option Nat) (t : FsNode) (target_path : String) : ScanState :=
  match t with
  | .file m =>
    if interruptDue trigger initState.stats.files_scanned then
      { initState with intr := true }
    else _analyze_file target_path m
      { initState with stats := { initState.stats with
          files_scanned := initState.stats.files_scanned + 1 } }
  | .dir _ readable _ children =>
    _scan_directory trigger 10 0 target_path readable children initState

/-- `run_custom_scan` (custom_scan.py, lines 34–106).  A missing target
path (line 44) prints an error and returns `([], {})` — embedded as
`Except.ok ([], none)` — before any traversal.  A file target is
counted and analysed directly (lines 65–68); a directory target is
walked with `max_depth=10` (line 71, via the default of line 109).  The
`except KeyboardInterrupt` handler (lines 94–99) finalises the stats
and returns the partial pair, so the function never raises. -/
def run_custom_scan (now : Nat) (trigger : Option Nat) (target : Option FsNode)
    (target_path : String) : Except PyExc (List ScanResult × Option ScanStats) :=
  match target with
  | none => Except.ok ([], none)
  | some t =>
    let body := scanBody trigger t target_path
    if body.intr then
      Except.ok (body.results,
        some { body.stats with end_time := some now, duration := now })
    else
      Except.ok (body.results,
        some { body.stats with end_time := some now, duration := now })

end CustomScan

/-! ## `signature_detection.py` — signature detector and its traversal -/

namespace SignatureDetection

/-- `SignatureDetector.signature_db` as initialised by
`initialize_signatures` (signature_detection.py, lines 18–27). -/
def signature_db : List (String × String) :=
  [("44d88612fea8a8f36de82e1278abb02f", "Trojan.Generic"),
   ("81891b0d3cbb89c1e044b8c5c504c83a", "Worm.Win32"),
   ("e6d290a03b70cfa5d4451da444bdea39", "Ransomware.Crypto")]

/-- `SignatureDetector.calculate_file_hash` (signature_detection.py,
lines 29–39): the MD5 digest of a readable file, `None` when `open`
raises (the exception is caught locally). -/
def calculate_file_hash (f : FileMeta) : Option String :=
  if f.readable then some f.md5 else none

/-- One result dict of `SignatureDetector.scan_file`
(signature_detection.py, lines 43–47). -/
structure ScanResult where
  file_path : String
  status : String
  threat_name : Option String
  deriving DecidableEq, Repr

/-- `SignatureDetector.scan_file` (signature_detection.py, lines
41–58): `error` when hashing fails, `infected` with the threat name on
a signature-database hit, `clean` otherwise. -/
def scan_file (file_path : String) (f : FileMeta) : ScanResult :=
  match calculate_file_hash f with
  | none => ⟨file_path, "error", none⟩
  | some file_hash =>
    match signature_db.find? (fun kv => kv.1 = file_hash) with
    | some kv => ⟨file_path, "infected", some kv.2⟩
    | none => ⟨file_path, "clean", none⟩

/-- The per-directory file pass of the `os.walk` loop in
`scan_directory` (signature_detection.py, lines 64–67): every entry of
`filenames` — *including a symlink to a file*, which `os.walk` reports
in `filenames` — is scanned, in listing order. -/
def walkFiles (dirPath : String) : List FsNode → List ScanResult
  | [] => []
  | FsNode.file m :: rest =>
    scan_file (dirPath ++ "/" ++ m.name) m :: walkFiles dirPath rest
  | FsNode.dir _ _ _ _ :: rest => walkFiles dirPath rest

/-- The recursive directory pass of `os.walk` (top-down, default
`followlinks=False`): a symlinked directory appears in `dirnames` but
is never walked into, and a directory whose listing fails is silently
skipped (`os.walk`'s default `onerror=None` swallows the error), so the
`except` at signature_detection.py lines 68–69 never fires in this
model. -/
def walkDirs (dirPath : String) : List FsNode → List ScanResult
  | [] => []
  | FsNode.file _ :: rest => walkDirs dirPath rest
  | FsNode.dir n r s children :: rest =>
    (if s then []
     else if r then
       walkFiles (dirPath ++ "/" ++ n) children
         ++ walkDirs (dirPath ++ "/" ++ n) children
     else []) ++ walkDirs dirPath rest

/-- `SignatureDetector.scan_directory` (signature_detection.py, lines
60–70): a top-down depth-first `os.walk` of the *whole* subtree — this
code path has no depth bound of any kind. -/
def scan_directory (dirPath : String) (readable : Bool)
    (children : List FsNode) : List ScanResult :=
  if readable then walkFiles dirPath children ++ walkDirs dirPath children
  else []

end SignatureDetection

/-- Remove every *symlinked directory* entry, recursively, keeping
symlinked files: exactly the entries `os.walk` with
`followlinks=False` refuses to descend into. -/
def pruneSymDirs : List FsNode → List FsNode
  | [] => []
  | FsNode.file m :: rest => FsNode.file m :: pruneSymDirs rest
  | FsNode.dir n r s children :: rest =>
    if s then pruneSymDirs rest
    else FsNode.dir n r s (pruneSymDirs children) :: pruneSymDirs rest

/-- A chain of `n` nested readable non-symlink directories with a
single file at the bottom: that file sits `n + 1` levels below the
root directory. -/
def chainTree : Nat → FileMeta → List FsNode
  | 0, m => [FsNode.file m]
  | n + 1, m => [FsNode.dir ("d" ++ toString n) true false (chainTree n m)]

/-- The path of the directory at the bottom of `chainTree n`, as the
traversal builds it. -/
def chainPath : Nat → String → String
  | 0, p => p
  | n + 1, p => chainPath n (p ++ "/" ++ ("d" ++ toString n))

/-! ## `advanced_detection.py` — score aggregation -/

namespace AdvancedDetection

/-- One matched behaviour pattern, as appended by
`AdvancedDetectionEngine._match_behavior_patterns`: a dict with keys
`pattern`, `category`, `severity`, `description`. -/
structure MatchedPattern where
  pattern : String
  category : String
  severity : Nat
  description : String
  deriving DecidableEq, Repr

/-- `AdvancedDetectionEngine._calculate_risk_score` (advanced_detection.py,
lines 187–193): `0` for no matches, otherwise
`min(100, int(total_severity * 10))`. -/
def _calculate_risk_score (matched_patterns : List MatchedPattern) : Nat :=
  if matched_patterns = [] then 0
  else min 100 ((matched_patterns.map (fun p => p.severity)).sum * 10)

end AdvancedDetection

end DpcAV

namespace DpcAV

open AdvancedDetection

/-- C1: for every finite sequence of findings the aggregator returns
`min(100, (sum of severities) * 10)`; in particular `0` on the empty
sequence, and a single severity-10 finding alone yields exactly `100`. -/
theorem c1_risk_score_aggregation (ps : List MatchedPattern)
    (p : MatchedPattern) (hp : p.severity = 10) :
    _calculate_risk_score ps = min 100 ((ps.map (fun q => q.severity)).sum * 10)
    ∧ _calculate_risk_score [] = 0
    ∧ _calculate_risk_score [p] = 100 := by
  refine ⟨?_, rfl, ?_⟩
  · unfold _calculate_risk_score
    split
    · subst ps; rfl
    · rfl
  · simp [_calculate_risk_score, hp]

/-- Witness for C1 at a concrete severity-10 pattern and the empty list. -/
theorem c1_risk_score_aggregation_witness :
    _calculate_risk_score [] = 0
    ∧ _calculate_risk_score [⟨"Ransomware_File_Encryption", "ransomware", 10, "d"⟩] = 100 :=
  ⟨(c1_risk_score_aggregation [] ⟨"Ransomware_File_Encryption", "ransomware", 10, "d"⟩ rfl).2.1,
   (c1_risk_score_aggregation [] ⟨"Ransomware_File_Encryption", "ransomware", 10, "d"⟩ rfl).2.2⟩

section AIClaims

open AIDetection

/-- Every addend of the accumulated threat score is nonnegative. -/
theorem threat_score_nonneg (features : Features) (file_path : String) :
    0 ≤ threat_score features file_path := by
  unfold threat_score
  split_ifs <;> norm_num

/-- C3: the computed entropy equals `-Σ p·log2(p)` over the nonzero
buckets of the 256-bucket byte-frequency histogram with
`p = count/length`, is `0` for empty content, and is exactly `0` for
content consisting of one repeated byte value of any positive length. -/
theorem c3_entropy (data : List (Fin 256)) (n : Nat) (b : Fin 256) (hn : 0 < n) :
    _calculate_entropy data = specEntropy data
    ∧ _calculate_entropy [] = 0
    ∧ _calculate_entropy (List.replicate n b) = 0 := by
  refine ⟨?_, by simp [_calculate_entropy], ?_⟩
  · unfold _calculate_entropy specEntropy
    rw [Finset.sum_filter]
    split
    · next h =>
      subst h
      simp
    · rfl
  · have hne : List.replicate n b ≠ [] := by
      simp [List.replicate_eq_nil_iff]
      omega
    unfold _calculate_entropy
    rw [if_neg hne]
    have hz : (∑ b' : Fin 256,
        if 0 < (List.replicate n b).count b' then
          (((List.replicate n b).count b' : ℝ) / (List.replicate n b).length) *
            Real.logb 2 (((List.replicate n b).count b' : ℝ) / (List.replicate n b).length)
        else 0) = 0 := by
      apply Finset.sum_eq_zero
      intro b' _
      rcases eq_or_ne b' b with h | h
      · subst h
        have hc : (List.replicate n b').count b' = n := by
          simp [List.count_replicate]
        have hl : (List.replicate n b').length = n := by simp
        rw [hc, hl, if_pos hn]
        have hnn : ((n : ℝ) / (n : ℝ)) = 1 := by
          rw [div_self]
          exact_mod_cast Nat.pos_iff_ne_zero.mp hn
        rw [hnn, Real.logb_one, mul_zero]
      · have hc : (List.replicate n b).count b' = 0 := by
          simp only [List.count_replicate]
          simp [Ne.symm h]
        rw [hc]
        simp
    rw [hz, neg_zero]

/-- Witness for C3 at concrete content: the empty file and a file of a
single repeated zero byte. -/
theorem c3_entropy_witness :
    _calculate_entropy [] = specEntropy []
    ∧ _calculate_entropy [] = 0
    ∧ _calculate_entropy (List.replicate 3 (0 : Fin 256)) = 0 :=
  c3_entropy [] 3 0 (by decide)

/-- C4: the AI detector classifies `malicious` exactly when the
accumulated threat score is `≥ 0.75`, `suspicious` exactly when it is in
`[0.4, 0.75)`, `benign` otherwise, and the reported (capped) score is
always in `[0, 1]`. -/
theorem c4_ai_classification (features : Features) (file_path : String) :
    ((_analyze_features features file_path).classification = "malicious"
       ↔ (0.75 : ℚ) ≤ threat_score features file_path)
    ∧ ((_analyze_features features file_path).classification = "suspicious"
       ↔ (0.4 : ℚ) ≤ threat_score features file_path
           ∧ threat_score features file_path < 0.75)
    ∧ ((_analyze_features features file_path).classification = "benign"
       ↔ threat_score features file_path < 0.4)
    ∧ 0 ≤ (_analyze_features features file_path).score
    ∧ (_analyze_features features file_path).score ≤ 1 := by
  have h0 : 0 ≤ threat_score features file_path := threat_score_nonneg features file_path
  unfold _analyze_features detection_threshold
  set s := threat_score features file_path with hs
  simp only [ge_iff_le]
  split_ifs with h1 h2
  · refine ⟨by simp [h1], ?_, ?_, ?_, ?_⟩
    · constructor
      · intro hcl; exact absurd hcl (by decide)
      · rintro ⟨_, hlt⟩; exact absurd h1 (not_le.mpr hlt)
    · constructor
      · intro hcl; exact absurd hcl (by decide)
      · intro hlt; exact absurd h1 (not_le.mpr (by linarith))
    · exact le_min h0 (by norm_num : (0:ℚ) ≤ 1.0)
    · exact le_trans (min_le_right _ _) (by norm_num : (1.0:ℚ) ≤ 1)
  · refine ⟨?_, by simp [h2, not_le.mp h1], ?_, ?_, ?_⟩
    · constructor
      · intro hcl; exact absurd hcl (by decide)
      · intro hle; exact absurd hle h1
    · constructor
      · intro hcl; exact absurd hcl (by decide)
      · intro hlt; exact absurd h2 (not_le.mpr hlt)
    · exact le_min h0 (by norm_num : (0:ℚ) ≤ 1.0)
    · exact le_trans (min_le_right _ _) (by norm_num : (1.0:ℚ) ≤ 1)
  · refine ⟨?_, ?_, by simp [not_le.mp h2], ?_, ?_⟩
    · constructor
      · intro hcl; exact absurd hcl (by decide)
      · intro hle; exact absurd hle h1
    · constructor
      · intro hcl; exact absurd hcl (by decide)
      · rintro ⟨hge, _⟩; exact absurd hge h2
    · exact le_min h0 (by norm_num : (0:ℚ) ≤ 1.0)
    · exact le_trans (min_le_right _ _) (by norm_num : (1.0:ℚ) ≤ 1)

end AIClaims

section DeepFileClaims

open DeepScan

/-- C2 counterexample: the claim fails as stated.  Two concrete files
whose MD5 digest is in `KNOWN_MALWARE_HASHES` are not classified
`malicious` by deep `_analyze_file`: a file one byte above the 100 MiB
ceiling is skipped before its hash is ever checked, and an unreadable
file hashes to `""` (the hashing helper swallows the `IOError`), so the
signature lookup misses and the evaluation ends in the error path. -/
theorem c2_signature_override_counterexample :
    (⟨"big.exe", 100 * 1024 * 1024 + 1, "e44f9e348c0c7eed13d225a9bdb4c576",
       "s", true, false⟩ : FileMeta).md5 ∈ KNOWN_MALWARE_HASHES
    ∧ _analyze_file "/a/big.exe"
        ⟨"big.exe", 100 * 1024 * 1024 + 1, "e44f9e348c0c7eed13d225a9bdb4c576",
         "s", true, false⟩ initState = initState
    ∧ (⟨"locked.exe", 10, "e44f9e348c0c7eed13d225a9bdb4c576",
         "s", false, false⟩ : FileMeta).md5 ∈ KNOWN_MALWARE_HASHES
    ∧ (_analyze_file "/a/locked.exe"
        ⟨"locked.exe", 10, "e44f9e348c0c7eed13d225a9bdb4c576",
         "s", false, false⟩ initState).stats.confirmed_threats = 0
    ∧ (_analyze_file "/a/locked.exe"
        ⟨"locked.exe", 10, "e44f9e348c0c7eed13d225a9bdb4c576",
         "s", false, false⟩ initState).results = [] := by
  refine ⟨by decide, ?_, by decide, ?_, ?_⟩ <;> decide

/-- C2 (amended): every readable file of size at most 100 MiB whose MD5
digest is in the signature store is appended to the results with
classification `malicious` and increments `confirmed_threats`, leaving
the suspicious and error counters untouched — regardless of the file's
name, size or any heuristic that would otherwise fire. -/
theorem c2_signature_override (file_path : String) (f : FileMeta) (st : ScanState)
    (hsize : f.size ≤ 100 * 1024 * 1024) (hread : f.readable = true)
    (hmd5 : f.md5 ∈ KNOWN_MALWARE_HASHES) :
    (_analyze_file file_path f st).results = st.results ++
      [⟨file_path, "malicious", "Matched known malware signature",
        f.md5, f.sha256, f.size⟩]
    ∧ (_analyze_file file_path f st).stats.confirmed_threats
        = st.stats.confirmed_threats + 1
    ∧ (_analyze_file file_path f st).stats.suspicious_files
        = st.stats.suspicious_files
    ∧ (_analyze_file file_path f st).stats.errors = st.stats.errors
    ∧ (_analyze_file file_path f st).stats.files_scanned
        = st.stats.files_scanned := by
  have hgt : ¬ (f.size > 100 * 1024 * 1024) := not_lt.mpr hsize
  have hm : _calculate_md5 f = f.md5 := by simp [_calculate_md5, hread]
  have hs : _calculate_sha256 f = f.sha256 := by simp [_calculate_sha256, hread]
  unfold _analyze_file
  rw [if_neg hgt]
  simp only [hm, hs]
  rw [if_pos hmd5]
  exact ⟨rfl, rfl, rfl, rfl, rfl⟩

/-- Witness for C2 (amended) at a concrete readable small file with a
known-malware digest. -/
theorem c2_signature_override_witness :
    (_analyze_file "/x/mal.exe"
        ⟨"mal.exe", 10, "e44f9e348c0c7eed13d225a9bdb4c576", "sh", true, false⟩
        initState).results =
      initState.results ++
        [⟨"/x/mal.exe", "malicious", "Matched known malware signature",
          "e44f9e348c0c7eed13d225a9bdb4c576", "sh", 10⟩]
    ∧ (_analyze_file "/x/mal.exe"
        ⟨"mal.exe", 10, "e44f9e348c0c7eed13d225a9bdb4c576", "sh", true, false⟩
        initState).stats.confirmed_threats = initState.stats.confirmed_threats + 1 := by
  have h := c2_signature_override "/x/mal.exe"
    ⟨"mal.exe", 10, "e44f9e348c0c7eed13d225a9bdb4c576", "sh", true, false⟩
    initState (by decide) rfl (by decide)
  exact ⟨h.1, h.2.1⟩

/-- C5 counterexample: the claim fails as stated for a file above the
100 MiB ceiling: deep `_analyze_file` on such a file (MD5 not in the
hash list) returns before reaching the body, so no `NameError` is
raised and the error counter is not incremented. -/
theorem c5_nameerror_counterexample :
    _calculate_md5
        ⟨"big.bin", 100 * 1024 * 1024 + 1, "zz", "s", true, false⟩
      ∉ KNOWN_MALWARE_HASHES
    ∧ (_analyze_file "/a/big.bin"
        ⟨"big.bin", 100 * 1024 * 1024 + 1, "zz", "s", true, false⟩
        initState).stats.errors = 0 := by
  constructor <;> decide

/-- C5 (amended): for every analyzed file of size at most 100 MiB whose
computed MD5 digest is not in the known-malware hash list, the analysis
body raises `NameError` (line 201 references the unbound name `self`),
which the handler at line 244 catches and counts as an error; the file
is never appended to the results, and the small-executable and
suspicious-filename heuristics that follow are unreachable: the whole
evaluation is exactly "increment `errors` by one". -/
theorem c5_nameerror_path (file_path : String) (f : FileMeta) (st : ScanState)
    (hsize : f.size ≤ 100 * 1024 * 1024)
    (hmd5 : _calculate_md5 f ∉ KNOWN_MALWARE_HASHES) :
    _analyze_file file_path f st =
      { st with stats := { st.stats with errors := st.stats.errors + 1 } } := by
  have hgt : ¬ (f.size > 100 * 1024 * 1024) := not_lt.mpr hsize
  unfold _analyze_file
  rw [if_neg hgt, if_neg hmd5]

/-- Witness for C5 (amended) at a concrete readable file with an
unknown digest. -/
theorem c5_nameerror_path_witness :
    _analyze_file "/x/tool.exe" ⟨"tool.exe", 2048, "abc", "sh", true, false⟩
        initState =
      { initState with stats :=
          { initState.stats with errors := initState.stats.errors + 1 } } :=
  c5_nameerror_path "/x/tool.exe" ⟨"tool.exe", 2048, "abc", "sh", true, false⟩
    initState (by decide) (by decide)

end DeepFileClaims

/-! ## Traversal helper lemmas -/

/-- Structural induction over filesystem listings (nested recursion on
`FsNode`). -/
theorem forest_induction {P : List FsNode → Prop}
    (hnil : P [])
    (hfile : ∀ m rest, P rest → P (FsNode.file m :: rest))
    (hdir : ∀ n r s children rest, P children → P rest →
      P (FsNode.dir n r s children :: rest)) :
    ∀ l, P l
  | [] => hnil
  | FsNode.file m :: rest => hfile m rest (forest_induction hnil hfile hdir rest)
  | FsNode.dir n r s children :: rest =>
    hdir n r s children rest (forest_induction hnil hfile hdir children)
      (forest_induction hnil hfile hdir rest)

namespace QuickScan

/-- Field accounting for the quick-scan file branch. -/
theorem fileStep_fields (d : Nat) (path : String) (m : FileMeta) (st : ScanState) :
    (fileStep d path m st).stats.files_scanned = st.stats.files_scanned + 1
    ∧ (fileStep d path m st).stats.errors = st.stats.errors
    ∧ (fileStep d path m st).intr = st.intr
    ∧ (fileStep d path m st).visitedDirs = st.visitedDirs
    ∧ (fileStep d path m st).visitedFiles = st.visitedFiles ++ [(d + 1, path)] := by
  unfold fileStep
  dsimp only
  split <;> exact ⟨rfl, rfl, rfl, rfl, rfl⟩

/-- Once a `KeyboardInterrupt` is unwinding, the quick traversal
enumerates nothing further. -/
theorem quick_scanEntries_intr (trigger : Option Nat) (maxDepth d : Nat) (p : String)
    (l : List FsNode) (st : ScanState) (h : st.intr = true) :
    scanEntries trigger maxDepth d p l st = st := by
  induction l generalizing st with
  | nil => rw [scanEntries.eq_def]
  | cons e rest ih =>
    rw [scanEntries.eq_def]
    simp only [h, if_true]
    exact ih st h

/-- The quick traversal computes the same state on the symlink-pruned
listing: entries reached through a symlink contribute nothing. -/
theorem scanEntries_prune (trigger : Option Nat) (maxDepth : Nat) :
    ∀ (l : List FsNode), ∀ (d : Nat) (p : String) (st : ScanState),
    scanEntries trigger maxDepth d p l st
      = scanEntries trigger maxDepth d p (pruneSyms l) st := by
  apply forest_induction
  · intro d p st
    rw [pruneSyms.eq_def]
  · intro m rest ih d p st
    rw [pruneSyms.eq_def]
    rcases hsym : m.isSymlink with _ | _
    · simp only [Bool.false_eq_true, if_false]
      rw [scanEntries.eq_def]
      conv_rhs => rw [scanEntries.eq_def]
      simp only [hsym, Bool.false_eq_true, if_false]
      rcases hi : st.intr with _ | _
      · simp only [Bool.false_eq_true, if_false]
        exact ih d p _
      · simp only [if_true]
        exact ih d p _
    · simp only [if_true]
      rw [scanEntries.eq_def]
      simp only [hsym, if_true]
      rcases hi : st.intr with _ | _
      · simp only [Bool.false_eq_true, if_false]
        exact ih d p _
      · simp only [if_true]
        exact ih d p _
  · intro n r s children rest ihc ih d p st
    rw [pruneSyms.eq_def]
    rcases hs : s with _ | _
    · simp only [Bool.false_eq_true, if_false]
      rw [scanEntries.eq_def]
      conv_rhs => rw [scanEntries.eq_def]
      simp only [hs, Bool.false_eq_true, if_false]
      rcases hi : st.intr with _ | _
      · simp only [Bool.false_eq_true, if_false]
        by_cases hd : d + 1 > maxDepth
        · simp only [hd, if_true]
          exact ih d p _
        · simp only [hd, if_false]
          rcases hr : r with _ | _
          · simp only [Bool.false_eq_true, if_false]
            exact ih d p _
          · simp only [if_true]
            rw [← ihc (d + 1) (p ++ "/" ++ n) _]
            exact ih d p _
      · simp only [if_true]
        exact ih d p _
    · simp only [if_true]
      rw [scanEntries.eq_def]
      simp only [hs, if_true]
      rcases hi : st.intr with _ | _
      · simp only [Bool.false_eq_true, if_false]
        exact ih d p _
      · simp only [if_true]
        exact ih d p _

/-- Depth accounting for the quick traversal: starting at depth
`d ≤ maxDepth`, every directory it opens is at depth at most `maxDepth`
and every file it processes is at depth at most `maxDepth + 1`. -/
theorem scanEntries_visited_bounds (trigger : Option Nat) (maxDepth : Nat) :
    ∀ (l : List FsNode), ∀ (d : Nat) (p : String) (st : ScanState),
    d ≤ maxDepth →
    (∀ q ∈ st.visitedDirs, q.1 ≤ maxDepth) →
    (∀ q ∈ st.visitedFiles, q.1 ≤ maxDepth + 1) →
    (∀ q ∈ (scanEntries trigger maxDepth d p l st).visitedDirs, q.1 ≤ maxDepth)
    ∧ (∀ q ∈ (scanEntries trigger maxDepth d p l st).visitedFiles, q.1 ≤ maxDepth + 1) := by
  apply forest_induction
  · intro d p st hd hD hF
    rw [scanEntries.eq_def]
    exact ⟨hD, hF⟩
  · intro m rest ih d p st hd hD hF
    rw [scanEntries.eq_def]
    rcases hi : st.intr with _ | _
    · simp only [hi, Bool.false_eq_true, if_false]
      rcases hsym : m.isSymlink with _ | _
      · simp only [hsym, Bool.false_eq_true, if_false]
        rcases hit : interruptDue trigger st.stats.files_scanned with _ | _
        · simp only [hit, Bool.false_eq_true, if_false]
          refine ih d p _ hd ?_ ?_
          · rw [(fileStep_fields d (p ++ "/" ++ m.name) m st).2.2.2.1]; exact hD
          · rw [(fileStep_fields d (p ++ "/" ++ m.name) m st).2.2.2.2]
            intro q hq
            rcases List.mem_append.mp hq with h | h
            · exact hF q h
            · rcases List.mem_singleton.mp h with rfl
              simpa using Nat.succ_le_succ hd
        · simp only [hit, if_true]
          exact ih d p _ hd hD hF
      · simp only [hsym, if_true]
        exact ih d p _ hd hD hF
    · simp only [hi, if_true]
      exact ih d p _ hd hD hF
  · intro n r s children rest ihc ih d p st hd hD hF
    rw [scanEntries.eq_def]
    rcases hi : st.intr with _ | _
    · simp only [hi, Bool.false_eq_true, if_false]
      rcases hs : s with _ | _
      · simp only [hs, Bool.false_eq_true, if_false]
        by_cases hdep : d + 1 > maxDepth
        · simp only [hdep, if_true]
          exact ih d p _ hd hD hF
        · simp only [hdep, if_false]
          have hd1 : d + 1 ≤ maxDepth := Nat.le_of_not_lt hdep
          have hD' : ∀ q ∈ (st.visitedDirs ++ [(d + 1, p ++ "/" ++ n)]), q.1 ≤ maxDepth := by
            intro q hq
            rcases List.mem_append.mp hq with h | h
            · exact hD q h
            · rcases List.mem_singleton.mp h with rfl
              simpa using hd1
          rcases hr : r with _ | _
          · simp only [hr, Bool.false_eq_true, if_false]
            exact ih d p _ hd hD' hF
          · simp only [hr, if_true]
            have hsub := ihc (d + 1) (p ++ "/" ++ n)
              { st with visitedDirs := st.visitedDirs ++ [(d + 1, p ++ "/" ++ n)] }
              hd1 hD' hF
            simp only [hi] at hsub
            exact ih d p _ hd hsub.1 hsub.2
      · simp only [hs, if_true]
        exact ih d p _ hd hD hF
    · simp only [hi, if_true]
      exact ih d p _ hd hD hF

/-- On a listing of plain non-symlink files, the quick traversal (with
no interrupt) counts every file, records no error, and completes. -/
theorem scanEntries_files_only (maxDepth : Nat) (d : Nat) (p : String) :
    ∀ (l : List FsNode) (st : ScanState),
    filesOnly l = true →
    st.intr = false →
    (scanEntries none maxDepth d p l st).stats.files_scanned
       = st.stats.files_scanned + l.length
    ∧ (scanEntries none maxDepth d p l st).stats.errors = st.stats.errors
    ∧ (scanEntries none maxDepth d p l st).intr = false := by
  intro l
  induction l with
  | nil =>
    intro st _ hi
    rw [scanEntries.eq_def]
    exact ⟨rfl, rfl, hi⟩
  | cons e rest ih =>
    intro st hl hi
    have hl' := hl
    unfold filesOnly at hl'
    rw [List.all_cons, Bool.and_eq_true] at hl'
    obtain ⟨hhead, htail⟩ := hl'
    match e, hhead with
    | FsNode.file m, hhead =>
      have hsym : m.isSymlink = false := by
        simpa using hhead
      rw [scanEntries.eq_def]
      simp only [hi, hsym, Bool.false_eq_true, if_false, interruptDue]
      have hf := fileStep_fields d (p ++ "/" ++ m.name) m st
      have hrec := ih (fileStep d (p ++ "/" ++ m.name) m st) htail (hf.2.2.1.trans hi)
      refine ⟨?_, hrec.2.1.trans hf.2.1, hrec.2.2⟩
      rw [hrec.1, hf.1]
      simp [List.length_cons]
      omega

end QuickScan

namespace DeepScan

/-- Once a `KeyboardInterrupt` is unwinding, the deep traversal
enumerates nothing further. -/
theorem deep_scanEntries_intr (trigger : Option Nat) (maxDepth d : Nat) (p : String)
    (l : List FsNode) (st : ScanState) (h : st.intr = true) :
    scanEntries trigger maxDepth d p l st = st := by
  induction l generalizing st with
  | nil => rw [scanEntries.eq_def]
  | cons e rest ih =>
    rw [scanEntries.eq_def]
    simp only [h, if_true]
    exact ih st h

end DeepScan

namespace CustomScan

/-- Once a `KeyboardInterrupt` is unwinding, the custom traversal
enumerates nothing further. -/
theorem custom_scanEntries_intr (trigger : Option Nat) (maxDepth d : Nat) (p : String)
    (l : List FsNode) (st : ScanState) (h : st.intr = true) :
    scanEntries trigger maxDepth d p l st = st := by
  induction l generalizing st with
  | nil => rw [scanEntries.eq_def]
  | cons e rest ih =>
    rw [scanEntries.eq_def]
    simp only [h, if_true]
    exact ih st h

end CustomScan

/-! ## Scan-session claims -/

section ScanSessionClaims

/-- C6 counterexample: the claim fails as stated.  A custom scan whose
root is a single readable benign text file returns *zero* verdicts, not
one: clean files are never appended to the results (custom
`_analyze_file` only appends suspicious entries, and no `clean` record
is produced anywhere).  The statistics part of the claim does hold:
`files_scanned = 1`, `suspicious_files = 0`. -/
theorem c6_clean_file_counterexample :
    CustomScan.run_custom_scan 5 none
        (some (FsNode.file ⟨"clean.txt", 10, "m", "h", true, false⟩))
        "/scan/clean.txt"
      = Except.ok ([], some ⟨1, 0, some 5, 5⟩) := by rfl

/-- C6 (amended): a custom scan whose root is a single readable benign
file (not a small `.exe`, and with no suspicious-name substring in its
basename) returns an *empty* result list — clean files produce no
verdict — and statistics with `files_scanned = 1`,
`suspicious_files = 0`, finalised. -/
theorem c6_clean_file_scan (now : Nat) (m : FileMeta) (tp : String)
    (hsize : m.size ≤ 100 * 1024 * 1024)
    (hsmall : (decide (m.size < 1024)
        && pyEndsWith (pyLower tp.toList) ".exe".toList) = false)
    (hnames : ∀ nm ∈ CustomScan.suspicious_names,
        containsSub nm.toList (pyLower (pyBasename tp.toList)) = false) :
    CustomScan.run_custom_scan now none (some (FsNode.file m)) tp
      = Except.ok ([], some ⟨1, 0, some now, now⟩) := by
  have hmatched : CustomScan.suspicious_names.filter
      (fun nm => containsSub nm.toList (pyLower (pyBasename tp.toList))) = [] := by
    rw [List.filter_eq_nil_iff]
    intro nm hnm
    simpa using hnames nm hnm
  have hanalyze : ∀ st : CustomScan.ScanState,
      CustomScan._analyze_file tp m st = st := by
    intro st
    unfold CustomScan._analyze_file
    dsimp only
    rw [if_neg (by omega : ¬ m.size > 100 * 1024 * 1024)]
    rw [hmatched, hsmall]
    simp
  unfold CustomScan.run_custom_scan CustomScan.scanBody
  dsimp only
  rw [hanalyze]
  rfl

/-- Witness for C6 (amended) at the concrete `/scan/clean.txt`
scenario. -/
theorem c6_clean_file_scan_witness :
    CustomScan.run_custom_scan 9 none
        (some (FsNode.file ⟨"clean.txt", 10, "m", "h", true, false⟩))
        "/scan/clean.txt"
      = Except.ok ([], some ⟨1, 0, some 9, 9⟩) :=
  c6_clean_file_scan 9 ⟨"clean.txt", 10, "m", "h", true, false⟩ "/scan/clean.txt"
    (by decide) (by decide) (by decide)

/-- C7 counterexample: the claim fails as stated.  On a missing root
path `run_custom_scan` does not surface a `PathNotFound` (or any) error
to the caller: it prints a message and returns normally with an empty
result list and an empty stats dict (`Except.ok ([], none)` in the
embedding — `isOk` is `true`, so there is no hard failure). -/
theorem c7_missing_path_counterexample :
    CustomScan.run_custom_scan 5 none none "/missing" = Except.ok ([], none)
    ∧ (CustomScan.run_custom_scan 5 none none "/missing").isOk = true :=
  ⟨rfl, rfl⟩

/-- C7 (amended): a custom scan on a path that does not exist returns
immediately — before any traversal, whatever the interrupt trigger —
with an empty result list and empty statistics; the bad root is
signalled by this sentinel return value, not by an error raised to the
caller. -/
theorem c7_missing_path_failfast (now : Nat) (trigger : Option Nat) (tp : String) :
    CustomScan.run_custom_scan now trigger none tp = Except.ok ([], none) := rfl

/-- C8 counterexample: the claim fails as stated.  Quick-scanning a
directory of nine readable files and one unreadable file yields
`files_scanned = 10` and `errors = 0`, not `9` and `1`: files are
counted the moment they are enumerated, and the quick scan never opens
file contents, so an unreadable file causes no error.  The completion
part holds: the scan returns with no pending exception. -/
theorem c8_unreadable_file_counterexample :
    (QuickScan._scan_directory none 2 0 "/dir" true exampleMixedListing
        QuickScan.initState).stats.files_scanned = 10
    ∧ (QuickScan._scan_directory none 2 0 "/dir" true exampleMixedListing
        QuickScan.initState).stats.errors = 0
    ∧ (QuickScan._scan_directory none 2 0 "/dir" true exampleMixedListing
        QuickScan.initState).intr = false := by
  have hw : QuickScan._scan_directory none 2 0 "/dir" true exampleMixedListing
        QuickScan.initState
      = QuickScan.scanEntries none 2 0 "/dir" exampleMixedListing
          { QuickScan.initState with visitedDirs := [(0, "/dir")] } := by
    unfold QuickScan._scan_directory
    simp [QuickScan.initState]
  have h := QuickScan.scanEntries_files_only 2 0 "/dir" exampleMixedListing
    { QuickScan.initState with visitedDirs := [(0, "/dir")] } rfl rfl
  refine ⟨?_, ?_, ?_⟩
  · rw [hw, h.1]; rfl
  · rw [hw]; exact h.2.1
  · rw [hw]; exact h.2.2

/-- C8 (amended): quick-scanning a directory whose listing consists of
plain (non-symlink) files — readable or not — counts *every* file in
`files_scanned`, records *no* error (the quick scan reads no file
content), and completes and returns without raising. -/
theorem c8_partial_failure_stats (maxDepth : Nat) (p : String) (l : List FsNode)
    (hl : filesOnly l = true) :
    (QuickScan._scan_directory none maxDepth 0 p true l
        QuickScan.initState).stats.files_scanned = l.length
    ∧ (QuickScan._scan_directory none maxDepth 0 p true l
        QuickScan.initState).stats.errors = 0
    ∧ (QuickScan._scan_directory none maxDepth 0 p true l
        QuickScan.initState).intr = false := by
  have hw : QuickScan._scan_directory none maxDepth 0 p true l QuickScan.initState
      = QuickScan.scanEntries none maxDepth 0 p l
          { QuickScan.initState with visitedDirs := [(0, p)] } := by
    unfold QuickScan._scan_directory
    simp [QuickScan.initState]
  have h := QuickScan.scanEntries_files_only maxDepth 0 p l
    { QuickScan.initState with visitedDirs := [(0, p)] } hl rfl
  refine ⟨?_, ?_, ?_⟩
  · rw [hw, h.1]
    simp [QuickScan.initState]
  · rw [hw]; exact h.2.1
  · rw [hw]; exact h.2.2

/-- Witness for C8 (amended) at a concrete single-file listing with an
unreadable file. -/
theorem c8_partial_failure_stats_witness :
    filesOnly [FsNode.file ⟨"w.txt", 10, "m", "h", false, false⟩] = true
    ∧ (QuickScan._scan_directory none 2 0 "/w"
        true [FsNode.file ⟨"w.txt", 10, "m", "h", false, false⟩]
        QuickScan.initState).stats.files_scanned
      = [FsNode.file ⟨"w.txt", 10, "m", "h", false, false⟩].length :=
  ⟨rfl, (c8_partial_failure_stats 2 "/w"
    [FsNode.file ⟨"w.txt", 10, "m", "h", false, false⟩] rfl).1⟩

/-- C9 counterexample: the claim fails as stated.  With `maxDepth = 0`
(depth counted from `0` at the root) the quick traversal still visits
the root directory's files, which lie at depth `1 > 0`: the depth check
only stops *directory recursion* (directories at depth
`> maxDepth` are not entered), so files one level below the cap are
visited. -/
theorem c9_depth_counterexample :
    (1, "/r/a.exe") ∈ (QuickScan._scan_directory none 0 0 "/r" true
      [FsNode.file ⟨"a.exe", 10, "m", "h", true, false⟩]
      QuickScan.initState).visitedFiles ∧ 0 < 1 := by
  constructor
  · simp [QuickScan._scan_directory, QuickScan.scanEntries, QuickScan.fileStep,
      interruptDue, QuickScan.initState]
    split <;> simp
  · decide

/-- Traversal policy of the quick scan's recursive `_scan_directory`:
every directory it opens is at depth at most `maxDepth`, every file it
processes is at depth at most `maxDepth + 1`, and its entire final
state is unchanged when every symlink entry is pruned from the tree
beforehand. -/
theorem quick_traversal_policy (trigger : Option Nat) (maxDepth : Nat) (p : String)
    (readable : Bool) (l : List FsNode) :
    (∀ q ∈ (QuickScan._scan_directory trigger maxDepth 0 p readable l
        QuickScan.initState).visitedDirs, q.1 ≤ maxDepth)
    ∧ (∀ q ∈ (QuickScan._scan_directory trigger maxDepth 0 p readable l
        QuickScan.initState).visitedFiles, q.1 ≤ maxDepth + 1)
    ∧ QuickScan._scan_directory trigger maxDepth 0 p readable l QuickScan.initState
      = QuickScan._scan_directory trigger maxDepth 0 p readable (pruneSyms l)
          QuickScan.initState := by
  have hD : ∀ q ∈ [((0 : Nat), p)], (q : Nat × String).1 ≤ maxDepth := by
    intro q hq
    rcases List.mem_singleton.mp hq with rfl
    exact Nat.zero_le _
  have hF : ∀ q ∈ ([] : List (Nat × String)), (q : Nat × String).1 ≤ maxDepth + 1 := by
    intro q hq
    exact absurd hq (List.not_mem_nil q)
  unfold QuickScan._scan_directory
  rcases readable with _ | _
  · simp only [QuickScan.initState, Bool.false_eq_true, if_false, Nat.not_lt_zero]
    refine ⟨?_, ?_, trivial⟩
    · intro q hq
      simp at hq
      rcases hq with rfl
      exact Nat.zero_le _
    · intro q hq
      simp at hq
  · simp only [QuickScan.initState, Bool.false_eq_true, if_false, Nat.not_lt_zero,
      if_true]
    have hb := QuickScan.scanEntries_visited_bounds trigger maxDepth l 0 p
      { QuickScan.initState with visitedDirs := [(0, p)] } (Nat.zero_le _) hD hF
    exact ⟨hb.1, hb.2, QuickScan.scanEntries_prune trigger maxDepth l 0 p _⟩

/-- Scanning the symlink-dir-pruned listing: `walkFiles` of the
signature detector ignores directory entries, so pruning symlinked
directories leaves its per-directory file pass unchanged. -/
theorem sig_walkFiles_pruneSymDirs :
    ∀ (l : List FsNode) (p : String),
    SignatureDetection.walkFiles p (pruneSymDirs l)
      = SignatureDetection.walkFiles p l := by
  apply forest_induction
  · intro p
    simp only [pruneSymDirs]
  · intro m rest ih p
    simp only [pruneSymDirs, SignatureDetection.walkFiles]
    rw [ih p]
  · intro n r s children rest ihc ih p
    simp only [pruneSymDirs]
    rcases s with _ | _
    · simp only [Bool.false_eq_true, if_false, SignatureDetection.walkFiles]
      exact ih p
    · simp only [if_true, SignatureDetection.walkFiles]
      exact ih p

/-- The recursive pass of the signature detector's `os.walk` never
enters a symlinked directory, so pruning them changes nothing. -/
theorem sig_walkDirs_pruneSymDirs :
    ∀ (l : List FsNode) (p : String),
    SignatureDetection.walkDirs p (pruneSymDirs l)
      = SignatureDetection.walkDirs p l := by
  apply forest_induction
  · intro p
    simp only [pruneSymDirs]
  · intro m rest ih p
    simp only [pruneSymDirs, SignatureDetection.walkDirs]
    exact ih p
  · intro n r s children rest ihc ih p
    simp only [pruneSymDirs]
    rcases s with _ | _
    · simp only [Bool.false_eq_true, if_false, SignatureDetection.walkDirs]
      rw [ih p, ihc (p ++ "/" ++ n), sig_walkFiles_pruneSymDirs children (p ++ "/" ++ n)]
    · simp only [if_true, SignatureDetection.walkDirs]
      simp only [Bool.false_eq_true, if_false, List.nil_append]
      exact ih p

/-- `SignatureDetector.scan_directory` computes the same results on the
tree with every symlinked *directory* pruned (it still scans symlinked
files, which `os.walk` reports in `filenames`). -/
theorem sig_scan_pruneSymDirs (p : String) (readable : Bool) (l : List FsNode) :
    SignatureDetection.scan_directory p readable l
      = SignatureDetection.scan_directory p readable (pruneSymDirs l) := by
  unfold SignatureDetection.scan_directory
  rcases readable with _ | _
  · rfl
  · rw [if_pos rfl, if_pos rfl,
      sig_walkFiles_pruneSymDirs l p, sig_walkDirs_pruneSymDirs l p]

/-- `SignatureDetector.scan_directory` has no depth bound: on a chain
of `n` nested directories it scans the single file at the bottom —
`n + 1` levels below the root — for *every* `n`. -/
theorem sig_chain_scan (m : FileMeta) :
    ∀ (n : Nat) (p : String),
    SignatureDetection.scan_directory p true (chainTree n m)
      = [SignatureDetection.scan_file (chainPath n p ++ "/" ++ m.name) m] := by
  have hscan : ∀ (q : String) (l : List FsNode),
      SignatureDetection.scan_directory q true l
        = SignatureDetection.walkFiles q l ++ SignatureDetection.walkDirs q l := by
    intro q l
    unfold SignatureDetection.scan_directory
    rw [if_pos rfl]
  intro n
  induction n with
  | zero =>
    intro p
    rw [hscan]
    simp only [chainTree, chainPath, SignatureDetection.walkFiles,
      SignatureDetection.walkDirs]
    simp
  | succ n ih =>
    intro p
    rw [hscan]
    simp only [chainTree, chainPath, SignatureDetection.walkFiles,
      SignatureDetection.walkDirs]
    simp only [Bool.false_eq_true, if_false, if_true, List.append_nil,
      List.nil_append]
    rw [← hscan]
    exact ih (p ++ "/" ++ ("d" ++ toString n))

/-- C9 (amended): both traversals the claim cites are covered.  For the
quick scan's recursive `_scan_directory` (the depth-bounded code path):
(i) every directory it opens is at depth at most `maxDepth` and every
file it processes is at depth at most `maxDepth + 1` — one level deeper
than the claim allows, since the depth check stops only directory
recursion — and (ii) it never descends through any symlink: its entire
final state is unchanged when every symlink entry is pruned.  For the
signature detector's `os.walk`-based `scan_directory`: (iii) it never
descends into a directory reached through a symlink (`followlinks` is
left `False`) — its results are unchanged when every symlinked
directory is pruned, though symlinked *files* are still scanned — and
(iv) it enforces no depth bound at all: for every `n` it scans the file
of an `n`-deep directory chain, `n + 1` levels below the root. -/
theorem c9_traversal_policy (trigger : Option Nat) (maxDepth : Nat) (p : String)
    (readable : Bool) (l : List FsNode) (n : Nat) (fm : FileMeta) :
    (∀ q ∈ (QuickScan._scan_directory trigger maxDepth 0 p readable l
        QuickScan.initState).visitedDirs, q.1 ≤ maxDepth)
    ∧ (∀ q ∈ (QuickScan._scan_directory trigger maxDepth 0 p readable l
        QuickScan.initState).visitedFiles, q.1 ≤ maxDepth + 1)
    ∧ QuickScan._scan_directory trigger maxDepth 0 p readable l QuickScan.initState
      = QuickScan._scan_directory trigger maxDepth 0 p readable (pruneSyms l)
          QuickScan.initState
    ∧ SignatureDetection.scan_directory p readable l
      = SignatureDetection.scan_directory p readable (pruneSymDirs l)
    ∧ SignatureDetection.scan_directory p true (chainTree n fm)
      = [SignatureDetection.scan_file (chainPath n p ++ "/" ++ fm.name) fm] :=
  ⟨(quick_traversal_policy trigger maxDepth p readable l).1,
   (quick_traversal_policy trigger maxDepth p readable l).2.1,
   (quick_traversal_policy trigger maxDepth p readable l).2.2,
   sig_scan_pruneSymDirs p readable l,
   sig_chain_scan fm n p⟩

/-- Witness for C9 (amended): the depth bound extracted at the root
directory of a concrete quick scan, the quick symlink-pruning equation
on a concrete listing whose only entry is a symlinked file, and the
signature scan of a concrete three-deep directory chain. -/
theorem c9_traversal_policy_witness :
    (0 : Nat) ≤ 2
    ∧ QuickScan._scan_directory none 2 0 "/w" true
        [FsNode.file ⟨"b.txt", 5, "m", "h", true, true⟩] QuickScan.initState
      = QuickScan._scan_directory none 2 0 "/w" true
          (pruneSyms [FsNode.file ⟨"b.txt", 5, "m", "h", true, true⟩])
          QuickScan.initState
    ∧ SignatureDetection.scan_directory "/w" true
        (chainTree 3 ⟨"deep.txt", 4, "dm", "dh", true, false⟩)
      = [SignatureDetection.scan_file (chainPath 3 "/w" ++ "/" ++ "deep.txt")
          ⟨"deep.txt", 4, "dm", "dh", true, false⟩] := by
  refine ⟨?_,
    (c9_traversal_policy none 2 "/w" true
      [FsNode.file ⟨"b.txt", 5, "m", "h", true, true⟩] 3
      ⟨"deep.txt", 4, "dm", "dh", true, false⟩).2.2.1,
    (c9_traversal_policy none 2 "/w" true
      [FsNode.file ⟨"b.txt", 5, "m", "h", true, true⟩] 3
      ⟨"deep.txt", 4, "dm", "dh", true, false⟩).2.2.2.2⟩
  apply (c9_traversal_policy none 2 "/w" true
    [FsNode.file ⟨"b.txt", 5, "m", "h", true, true⟩] 3
    ⟨"deep.txt", 4, "dm", "dh", true, false⟩).1 (0, "/w")
  simp [QuickScan._scan_directory, QuickScan.scanEntries, QuickScan.initState]

/-- C10 counterexample: the claim fails as stated for the quick scan.
A user interrupt fired at the first file of a quick scan propagates to
the caller as `KeyboardInterrupt` instead of returning the partial
pair: `run_quick_scan`'s only handler is `except Exception`, and in
Python 3 `KeyboardInterrupt` does not derive from `Exception`. -/
theorem c10_quick_interrupt_counterexample :
    QuickScan.run_quick_scan 7 (some 0)
      [⟨"/r", true, true, [FsNode.file ⟨"a.txt", 1, "m", "h", true, false⟩]⟩]
      = Except.error PyExc.keyboardInterrupt := by
  simp [QuickScan.run_quick_scan, QuickScan.scanBody, QuickScan._scan_directory,
    QuickScan.scanEntries, QuickScan.fileStep, interruptDue, QuickScan.initState]

/-- C10 (amended): a user interrupt stops enumerating new files in
every scan type (an unwinding traversal enumerates nothing further),
and the deep and custom scans catch it, finalise the statistics (end
time and duration set) and return the partial `(results, statistics)`
pair; the quick scan, whose handler catches only `Exception`, instead
propagates the `KeyboardInterrupt` to its caller. -/
theorem c10_cancellation (now : Nat) (trigger : Option Nat) (roots rootsQ : List Root)
    (t : FsNode) (tp : String) (maxDepth d : Nat) (p : String) (l : List FsNode)
    (stD : DeepScan.ScanState) (stC : CustomScan.ScanState)
    (hD : stD.intr = true) (hC : stC.intr = true)
    (hQ : (QuickScan.scanBody trigger rootsQ).intr = true) :
    DeepScan.run_deep_scan now trigger roots
      = Except.ok ((DeepScan.scanBody trigger roots).results,
          { (DeepScan.scanBody trigger roots).stats with
              end_time := some now, duration := now })
    ∧ CustomScan.run_custom_scan now trigger (some t) tp
      = Except.ok ((CustomScan.scanBody trigger t tp).results,
          some { (CustomScan.scanBody trigger t tp).stats with
              end_time := some now, duration := now })
    ∧ DeepScan.scanEntries trigger maxDepth d p l stD = stD
    ∧ CustomScan.scanEntries trigger maxDepth d p l stC = stC
    ∧ QuickScan.run_quick_scan now trigger rootsQ
        = Except.error PyExc.keyboardInterrupt := by
  refine ⟨?_, ?_, DeepScan.deep_scanEntries_intr _ _ _ _ _ _ hD,
    CustomScan.custom_scanEntries_intr _ _ _ _ _ _ hC, ?_⟩
  · unfold DeepScan.run_deep_scan
    dsimp only
    split <;> rfl
  · unfold CustomScan.run_custom_scan
    dsimp only
    split <;> rfl
  · unfold QuickScan.run_quick_scan
    dsimp only
    rw [hQ]
    simp

/-- Witness for C10 (amended) at concrete interrupted states and a
concrete interrupted quick scan. -/
theorem c10_cancellation_witness :
    ({ DeepScan.initState with intr := true } : DeepScan.ScanState).intr = true
    ∧ QuickScan.run_quick_scan 3 (some 0)
        [⟨"/q", true, true, [FsNode.file ⟨"b.txt", 1, "m", "h", true, false⟩]⟩]
      = Except.error PyExc.keyboardInterrupt := by
  refine ⟨rfl, ?_⟩
  exact (c10_cancellation 3 (some 0) []
    [⟨"/q", true, true, [FsNode.file ⟨"b.txt", 1, "m", "h", true, false⟩]⟩]
    (FsNode.file ⟨"x.txt", 1, "m", "h", true, false⟩) "/t" 5 0 "/z" []
    { DeepScan.initState with intr := true }
    { CustomScan.initState with intr := true } rfl rfl
    (by simp [QuickScan.scanBody, QuickScan._scan_directory, QuickScan.scanEntries,
      QuickScan.fileStep, interruptDue, QuickScan.initState])).2.2.2.2

end ScanSessionClaims

end DpcAV

